import Mathlib

/-!
Verification of the execution-engine management core of the `inkwell` LLVM
wrapper (`src/execution_engine.rs`), as a shallow embedding in Lean 4.

Native LLVM entry points (`LLVMGetFunctionAddress`, `LLVMFindFunction`,
`LLVMRemoveModule`, `LLVMRunFunctionAsMain`, `LLVMGetExecutionEngineTargetData`)
are external collaborators; they are modelled as explicit function parameters
(oracles) and, where a claim is about which native calls happen, the embedding
returns an explicit record of the calls performed.  Rust panics
(`assert!`, `assert_eq!`, `.expect(..)`) are modelled by the `Outcome` type.
-/

namespace Inkwell

/-- Byte string: the bytes of a Rust `&str` / `CString` payload. -/
abbrev Bytes := List Nat

/-- `CString::new`: succeeds with the same bytes iff no byte is NUL
(an interior NUL makes the conversion fail). -/
def cstringNew (s : Bytes) : Option Bytes :=
  if 0 ∈ s then none else some s

/-- Result of a Rust computation that may panic (`assert!`/`expect`). -/
inductive Outcome (α : Type) where
  | panic (msg : String)
  | ok (a : α)
deriving DecidableEq

/-- Whether an `Outcome` is a panic. -/
def Outcome.isPanic {α : Type} : Outcome α → Bool
  | .panic _ => true
  | .ok _ => false

/-- `LLVMExecutionEngineRef`: opaque native handle, pointer identity; `0` is null. -/
abbrev EngineRef := Nat

/-- `LLVMModuleRef`: opaque native module handle. -/
abbrev ModuleRef := Nat

/-- `LLVMTargetDataRef`: opaque native target-data handle. -/
abbrev TargetDataRef := Nat

/-- Modelled from the spec: the target-data descriptor (`targets::TargetData`,
whose source file is not among the sources); per the spec it is an owned
wrapper over a queryable native descriptor handle. -/
structure TargetData where
  target_data : TargetDataRef
deriving DecidableEq

/-- `struct ExecEngineInner(Rc<LLVMExecutionEngineRef>)`: the reference-counted
engine handle.  In the pure embedding the `Rc` cell is identified by the native
handle it holds; the strong count lives in the trace semantics (`RcState`). -/
structure ExecEngineInner where
  rc : EngineRef
deriving DecidableEq

/-- `pub struct ExecutionEngine` with its three fields. -/
structure ExecutionEngine where
  execution_engine : ExecEngineInner
  target_data : Option TargetData
  jit_mode : Bool
deriving DecidableEq

/-- `ExecutionEngine::new(execution_engine, jit_mode)`:
asserts the handle is non-null, queries the target data from the handle
(`LLVMGetExecutionEngineTargetData`, modelled by the oracle `targetDataOf`),
and builds the engine with `target_data = Some(..)`. -/
def ExecutionEngine.new (execution_engine : EngineRef)
    (targetDataOf : EngineRef → TargetDataRef) (jit_mode : Bool) :
    Outcome ExecutionEngine :=
  if execution_engine = 0 then
    .panic "assertion failed: !execution_engine.is_null()"
  else
    .ok ⟨⟨execution_engine⟩, some ⟨targetDataOf execution_engine⟩, jit_mode⟩

/-- `impl Clone for ExecutionEngine`: `ExecutionEngine::new(self.execution_engine.0.clone(), self.jit_mode)` —
shares the `Rc` (same underlying handle) and re-runs `new`, which re-queries
the target data and re-checks the non-null assertion. -/
def ExecutionEngine.clone (targetDataOf : EngineRef → TargetDataRef)
    (self : ExecutionEngine) : Outcome ExecutionEngine :=
  ExecutionEngine.new self.execution_engine.rc targetDataOf self.jit_mode

/-- Modelled from the spec: the `Module` type (`module.rs` is not among the
sources); per the spec each module carries a mutable native-representation
slot (`module: Cell<LLVMModuleRef>`) and a mutable owning-engine slot
(`owned_by_ee: RefCell<Option<ExecutionEngine>>`), both read and written by
this core. -/
structure Module where
  module : ModuleRef
  owned_by_ee : Option ExecutionEngine
deriving DecidableEq

/-- `pub enum FunctionLookupError`. -/
inductive FunctionLookupError where
  | JITNotEnabled
  | FunctionNotFound
deriving DecidableEq

/-- `pub enum RemoveModuleError` (the `LLVMString` payload is its byte text). -/
inductive RemoveModuleError where
  | ModuleNotOwned
  | IncorrectModuleOwner
  | LLVMError (msg : Bytes)
deriving DecidableEq

/-- Outcome of the native `LLVMRemoveModule` call: status code (`1` = failure),
the detached module written to `*OutMod`, and the diagnostic written to
`*OutError`. -/
structure LLVMRemoveModuleResult where
  code : Int
  out_mod : ModuleRef
  out_error : Bytes
deriving DecidableEq

deriving instance DecidableEq for Except

/-- Result view of `add_module`: the returned `Result<(), ()>`, the module
state after the call, and the native `LLVMAddModule` registrations performed
(engine handle, module handle). -/
structure AddModuleResult where
  result : Except Unit Unit
  module : Module
  nativeAdds : List (EngineRef × ModuleRef)
deriving DecidableEq

/-- `ExecutionEngine::add_module`: calls `LLVMAddModule` unconditionally,
then checks `module.owned_by_ee`; if already set returns `Err(())` (without
reverting the native registration), otherwise stores `Some(self.clone())`
in the slot and returns `Ok(())`. -/
def ExecutionEngine.add_module (targetDataOf : EngineRef → TargetDataRef)
    (self : ExecutionEngine) (m : Module) : Outcome AddModuleResult :=
  let adds := [(self.execution_engine.rc, m.module)]
  if m.owned_by_ee.isSome then
    .ok ⟨.error (), m, adds⟩
  else
    match ExecutionEngine.clone targetDataOf self with
    | .panic msg => .panic msg
    | .ok c => .ok ⟨.ok (), ⟨m.module, some c⟩, adds⟩

/-- `ExecutionEngine::remove_module`: ownership validation first
(`IncorrectModuleOwner` when the recorded owner's underlying handle differs
from `self`'s, `ModuleNotOwned` when the slot is `None`), then the native
`LLVMRemoveModule` call (its outcome is the oracle argument `b`); on native
failure (`code == 1`) the error string is wrapped and the module untouched;
on success the module handle is replaced by `*OutMod` and the slot cleared. -/
def ExecutionEngine.remove_module (self : ExecutionEngine) (m : Module)
    (b : LLVMRemoveModuleResult) : Except RemoveModuleError Unit × Module :=
  match m.owned_by_ee with
  | some ee =>
      if ee.execution_engine.rc ≠ self.execution_engine.rc then
        (.error .IncorrectModuleOwner, m)
      else if b.code = 1 then
        (.error (.LLVMError b.out_error), m)
      else
        (.ok (), ⟨b.out_mod, none⟩)
  | none => (.error .ModuleNotOwned, m)

/-- `pub struct Symbol<F>`: the engine handle it keeps alive plus the
`transmute_copy`d address bits of the resolved function. -/
structure Symbol where
  _execution_engine : ExecEngineInner
  inner : Nat
deriving DecidableEq

/-- A name-resolution call into the native backend. -/
inductive NativeCall where
  | getFunctionAddress (engine : EngineRef) (name : Bytes)
  | findFunction (engine : EngineRef) (name : Bytes)
deriving DecidableEq

/-- `ExecutionEngine::get_function::<F>`: JIT gate, `CString` conversion
(panics on interior NUL), `LLVMGetFunctionAddress` (oracle `gfa`),
zero-address check, then `assert_eq!(size_of::<F>(), size_of::<usize>())`,
and finally the `Symbol` sharing `self.execution_engine`.  `sizeF` and
`sizeUsize` stand for `size_of::<F>()` and `size_of::<usize>()`.  The second
component records the native name-resolution calls performed. -/
def ExecutionEngine.get_function (sizeF sizeUsize : Nat)
    (gfa : EngineRef → Bytes → Nat) (self : ExecutionEngine) (fn_name : Bytes) :
    Outcome (Except FunctionLookupError Symbol) × List NativeCall :=
  if !self.jit_mode then
    (.ok (.error .JITNotEnabled), [])
  else
    match cstringNew fn_name with
    | none => (.panic "Conversion to CString failed unexpectedly", [])
    | some c =>
        let address := gfa self.execution_engine.rc c
        let calls := [NativeCall.getFunctionAddress self.execution_engine.rc c]
        if address = 0 then
          (.ok (.error .FunctionNotFound), calls)
        else if sizeF ≠ sizeUsize then
          (.panic "The type `F` must have the same size as a function pointer", calls)
        else
          (.ok (.ok ⟨self.execution_engine, address⟩), calls)

/-- `ExecutionEngine::get_target_data`: `self.target_data.as_ref().expect(..)`. -/
def ExecutionEngine.get_target_data (self : ExecutionEngine) :
    Outcome TargetData :=
  match self.target_data with
  | some td => .ok td
  | none => .panic "TargetData should always exist until Drop"

/-- Modelled from the spec: `values::FunctionValue` (its source file is not
among the sources); a typed wrapper over a native function handle. -/
structure FunctionValue where
  fn_value : Nat
deriving DecidableEq

/-- Modelled from the spec: `FunctionValue::new` is fallible when given a
null handle (`None` iff the handle is null). -/
def FunctionValue.new (r : Nat) : Option FunctionValue :=
  if r = 0 then none else some ⟨r⟩

/-- `ExecutionEngine::get_function_value`: JIT gate, `CString` conversion
(panics on interior NUL), `LLVMFindFunction` (oracle `ff` returning the
status code and the `*mut function` out-value); status `0` maps through
`FunctionValue::new(..).ok_or(FunctionNotFound)`, anything else to
`FunctionNotFound`. -/
def ExecutionEngine.get_function_value (ff : EngineRef → Bytes → Int × Nat)
    (self : ExecutionEngine) (fn_name : Bytes) :
    Outcome (Except FunctionLookupError FunctionValue) × List NativeCall :=
  if !self.jit_mode then
    (.ok (.error .JITNotEnabled), [])
  else
    match cstringNew fn_name with
    | none => (.panic "Conversion to CString failed unexpectedly", [])
    | some c =>
        let r := ff self.execution_engine.rc c
        let calls := [NativeCall.findFunction self.execution_engine.rc c]
        if r.1 = 0 then
          match FunctionValue.new r.2 with
          | some fv => (.ok (.ok fv), calls)
          | none => (.ok (.error .FunctionNotFound), calls)
        else
          (.ok (.error .FunctionNotFound), calls)

/-- The argument record handed to the native `LLVMRunFunctionAsMain` call. -/
structure MainInvocation where
  ee : EngineRef
  func : Nat
  argc : Nat
  args : List Bytes
  env_vars : List Bytes
deriving DecidableEq

/-- The `args.iter().map(|&arg| CString::new(arg).expect(..)).collect()`
marshalling: `none` (a panic) iff some argument has an interior NUL. -/
def cstringAll : List Bytes → Option (List Bytes)
  | [] => some []
  | a :: t =>
      match cstringNew a, cstringAll t with
      | some c, some cs => some (c :: cs)
      | _, _ => none

/-- `ExecutionEngine::run_function_as_main`: marshals the argument strings
(panicking on interior NUL), builds `environment_variables = vec![]`, and
returns the native exit code (oracle `runMain`) unchanged, together with the
record of the native invocation performed. -/
def ExecutionEngine.run_function_as_main (runMain : MainInvocation → Int)
    (self : ExecutionEngine) (function : FunctionValue) (args : List Bytes) :
    Outcome (Int × List MainInvocation) :=
  match cstringAll args with
  | none => .panic "Conversion to CString failed unexpectedly"
  | some cstrs =>
      let inv : MainInvocation :=
        ⟨self.execution_engine.rc, function.fn_value, cstrs.length, cstrs, []⟩
      .ok (runMain inv, [inv])

/-- A teardown side effect: an independent target-data disposal or the
engine disposal performed by `LLVMDisposeExecutionEngine`. -/
inductive TeardownEvent where
  | disposeTargetData (td : TargetDataRef)
  | disposeExecutionEngine (ee : EngineRef)
deriving DecidableEq

/-- `impl Drop for ExecutionEngine` followed by the implicit field drop of
`ExecEngineInner`, as the list of native disposals performed given the `Rc`
strong count at drop time: the body `forget(self.target_data.take().expect(..))`
suppresses the target-data destructor (no `disposeTargetData` event ever),
then `ExecEngineInner::drop` disposes the engine iff this was the last owner. -/
def ExecutionEngine.dropEvents (self : ExecutionEngine) (strong : Nat) :
    Outcome (List TeardownEvent) :=
  match self.target_data with
  | none => .panic "TargetData should always exist until Drop"
  | some _ =>
      .ok (if strong = 1 then
             [TeardownEvent.disposeExecutionEngine self.execution_engine.rc]
           else [])

/-- An operation on the shared `Rc<LLVMExecutionEngineRef>`: a clone
(`ExecutionEngine::clone`, `add_module`'s stored clone, or a `Symbol`
construction) or a drop of one owner (`ExecEngineInner::drop`). -/
inductive RcOp where
  | clone
  | drop
deriving DecidableEq

/-- State of one shared engine handle: the `Rc` strong count and how many
times `LLVMDisposeExecutionEngine` has been called on it. -/
structure RcState where
  strong : Nat
  disposeCalls : Nat
deriving DecidableEq

/-- Cloning the `Rc` increments the strong count; it never disposes. -/
def cloneStep (s : RcState) : RcState :=
  ⟨s.strong + 1, s.disposeCalls⟩

/-- `impl Drop for ExecEngineInner`: if `Rc::strong_count == 1` (this is the
last owner) call `LLVMDisposeExecutionEngine`; the `Rc` itself then
decrements the count. -/
def dropInnerStep (s : RcState) : RcState :=
  if s.strong = 1 then ⟨0, s.disposeCalls + 1⟩
  else ⟨s.strong - 1, s.disposeCalls⟩

/-- Run a sequence of clone/drop operations on one shared handle. -/
def runOps : List RcOp → RcState → RcState
  | [], s => s
  | .clone :: t, s => runOps t (cloneStep s)
  | .drop :: t, s => runOps t (dropInnerStep s)

/-- Number of clone operations in a trace. -/
def numClone : List RcOp → Nat
  | [] => 0
  | .clone :: t => numClone t + 1
  | .drop :: t => numClone t

/-- Number of drop operations in a trace. -/
def numDrop : List RcOp → Nat
  | [] => 0
  | .clone :: t => numDrop t
  | .drop :: t => numDrop t + 1

/-- A trace is valid from `n` live owners when every operation happens while
at least one owner is live: Rust's ownership rules let a clone or a drop be
performed only by an existing live owner. -/
def validFrom : Nat → List RcOp → Bool
  | _, [] => true
  | n, .clone :: t => decide (1 ≤ n) && validFrom (n + 1) t
  | n, .drop :: t => decide (1 ≤ n) && validFrom (n - 1) t

/-- Sample live JIT-mode engine used in concrete witnesses. -/
def ee0 : ExecutionEngine := ⟨⟨1⟩, some ⟨7⟩, true⟩

/-- Sample live engine constructed without JIT mode. -/
def eeNoJit : ExecutionEngine := ⟨⟨2⟩, some ⟨7⟩, false⟩

/-- Sample target-data oracle used in concrete witnesses. -/
def tdo0 : EngineRef → TargetDataRef := fun _ => 7

theorem validFrom_zero (ops : List RcOp) (h : validFrom 0 ops = true) :
    ops = [] := by
  cases ops with
  | nil => rfl
  | cons op t => cases op <;> simp [validFrom] at h

/-- Closed form for running a valid clone/drop trace: the strong count moves
by clones minus drops, and the disposal fires exactly on the trace that
brings the count to zero. -/
theorem runOps_closed_form (ops : List RcOp) : ∀ n d : Nat, 1 ≤ n →
    validFrom n ops = true →
    runOps ops ⟨n, d⟩ =
      ⟨n + numClone ops - numDrop ops,
       d + (if n + numClone ops = numDrop ops then 1 else 0)⟩ := by
  induction ops with
  | nil =>
      intro n d hn _
      simp only [runOps, numClone, numDrop]
      rw [if_neg (by omega : ¬ n + 0 = 0)]
      congr 1
  | cons op t ih =>
      intro n d hn h
      cases op with
      | clone =>
          simp only [validFrom, Bool.and_eq_true, decide_eq_true_eq] at h
          have hstep : runOps (RcOp.clone :: t) ⟨n, d⟩
              = runOps t ⟨n + 1, d⟩ := rfl
          rw [hstep, ih (n + 1) d (by omega) h.2]
          have h1 : n + 1 + numClone t = n + numClone (RcOp.clone :: t) := by
            simp [numClone]; omega
          simp only [numClone, numDrop] at h1 ⊢
          rw [h1]
      | drop =>
          simp only [validFrom, Bool.and_eq_true, decide_eq_true_eq] at h
          by_cases hn : n = 1
          · subst hn
            have ht : t = [] := validFrom_zero t h.2
            subst ht
            simp [runOps, dropInnerStep, numClone, numDrop]
          · have hstep : runOps (RcOp.drop :: t) ⟨n, d⟩
                = runOps t ⟨n - 1, d⟩ := by
              simp [runOps, dropInnerStep, hn]
            rw [hstep, ih (n - 1) d (by omega) h.2]
            have h1 : n - 1 + numClone t - numDrop t
                = n + numClone t - (numDrop t + 1) := by omega
            have h2 : (ite (n - 1 + numClone t = numDrop t) 1 0 : Nat)
                = ite (n + numClone t = numDrop t + 1) 1 0 :=
              if_congr (by omega) rfl rfl
            simp only [numClone, numDrop]
            rw [h1, h2]

/-- Claim C1: for every valid sequence of clone and drop operations on
`ExecutionEngine` and `Symbol` values sharing one engine handle (starting
from the single original owner), `LLVMDisposeExecutionEngine` is invoked
exactly once, at the drop bringing the shared count from 1 to 0 (the trace
whose drops exhaust the owners), and never while some owner is still live
(drops strictly fewer than owners created). -/
theorem c1_refcount_discipline (ops : List RcOp)
    (h : validFrom 1 ops = true) :
    (runOps ops ⟨1, 0⟩).strong = 1 + numClone ops - numDrop ops ∧
    (runOps ops ⟨1, 0⟩).disposeCalls
      = (if 1 + numClone ops = numDrop ops then 1 else 0) ∧
    (numDrop ops < 1 + numClone ops →
      (runOps ops ⟨1, 0⟩).disposeCalls = 0) ∧
    (numDrop ops = 1 + numClone ops →
      (runOps ops ⟨1, 0⟩).disposeCalls = 1) := by
  rw [runOps_closed_form ops 1 0 (by omega) h]
  refine ⟨rfl, by simp, ?_, ?_⟩
  · intro hlt
    have : ¬ (1 + numClone ops = numDrop ops) := by omega
    simp [this]
  · intro heq
    simp [heq.symm]

/-- Concrete run of `c1_refcount_discipline`: one clone then two drops
disposes exactly once, with all owners gone. -/
theorem c1_refcount_discipline_witness :
    validFrom 1 [RcOp.clone, RcOp.drop, RcOp.drop] = true ∧
    (runOps [RcOp.clone, RcOp.drop, RcOp.drop] ⟨1, 0⟩).disposeCalls = 1 :=
  ⟨by decide,
   (c1_refcount_discipline [RcOp.clone, RcOp.drop, RcOp.drop]
      (by decide)).2.2.2 (by decide)⟩

/-- Claim C9: a successful `add_module` stores a full clone of the
`ExecutionEngine` — sharing the reference-counted handle — in the module's
ownership slot, and consequently (the stored clone being a live owner in the
handle's clone/drop trace) while any owner remains undropped the strong count
stays at least 1 and the native disposal has not fired. -/
theorem c9_add_module_keep_alive (targetDataOf : EngineRef → TargetDataRef)
    (self : ExecutionEngine) (m : Module)
    (hm : m.owned_by_ee = none) (hlive : self.execution_engine.rc ≠ 0) :
    (∃ c, ExecutionEngine.clone targetDataOf self = .ok c ∧
       self.add_module targetDataOf m =
         .ok ⟨.ok (), ⟨m.module, some c⟩,
              [(self.execution_engine.rc, m.module)]⟩ ∧
       c.execution_engine = self.execution_engine) ∧
    (∀ ops, validFrom 1 ops = true → numDrop ops < 1 + numClone ops →
       1 ≤ (runOps ops ⟨1, 0⟩).strong ∧
       (runOps ops ⟨1, 0⟩).disposeCalls = 0) := by
  constructor
  · refine ⟨⟨⟨self.execution_engine.rc⟩,
        some ⟨targetDataOf self.execution_engine.rc⟩, self.jit_mode⟩, ?_, ?_, rfl⟩
    · simp [ExecutionEngine.clone, ExecutionEngine.new, hlive]
    · simp [ExecutionEngine.add_module, ExecutionEngine.clone,
        ExecutionEngine.new, hlive, hm]
  · intro ops hv hlt
    rw [runOps_closed_form ops 1 0 (by omega) hv]
    have : ¬ (1 + numClone ops = numDrop ops) := by omega
    refine ⟨by simp; omega, by simp [this]⟩

/-- Concrete run of `c9_add_module_keep_alive`: adding a fresh module to a
live engine succeeds and, with the stored clone still live, no disposal. -/
theorem c9_add_module_keep_alive_witness :
    (runOps [RcOp.clone] ⟨1, 0⟩).disposeCalls = 0 ∧
    1 ≤ (runOps [RcOp.clone] ⟨1, 0⟩).strong := by
  have h := (c9_add_module_keep_alive tdo0 ee0 ⟨5, none⟩ rfl
    (by decide)).2 [RcOp.clone] (by decide) (by decide)
  exact ⟨h.2, h.1⟩

/-- Claim C2: `remove_module` fails with `ModuleNotOwned` when the ownership
flag is unset; fails with `IncorrectModuleOwner` when the flag names an engine
whose underlying native handle differs from `self`'s (so a clone of the owning
engine passes the ownership check); wraps a backend failure (`code == 1`) as
`LLVMError` leaving the flag and the module's native representation unchanged;
and on success replaces the module handle with the detached `*OutMod` and
clears the flag to unowned. -/
theorem c2_remove_module (self : ExecutionEngine) (m : Module)
    (b : LLVMRemoveModuleResult) :
    (m.owned_by_ee = none →
      self.remove_module m b = (.error .ModuleNotOwned, m)) ∧
    (∀ ee, m.owned_by_ee = some ee →
      ee.execution_engine.rc ≠ self.execution_engine.rc →
      self.remove_module m b = (.error .IncorrectModuleOwner, m)) ∧
    (∀ ee targetDataOf c, m.owned_by_ee = some ee →
      ExecutionEngine.clone targetDataOf ee = .ok c →
      (ExecutionEngine.remove_module c m b).1 ≠ .error .ModuleNotOwned ∧
      (ExecutionEngine.remove_module c m b).1 ≠ .error .IncorrectModuleOwner) ∧
    (∀ ee, m.owned_by_ee = some ee →
      ee.execution_engine.rc = self.execution_engine.rc → b.code = 1 →
      self.remove_module m b = (.error (.LLVMError b.out_error), m)) ∧
    (∀ ee, m.owned_by_ee = some ee →
      ee.execution_engine.rc = self.execution_engine.rc → b.code ≠ 1 →
      self.remove_module m b = (.ok (), ⟨b.out_mod, none⟩)) := by
  refine ⟨?_, ?_, ?_, ?_, ?_⟩
  · intro h
    simp [ExecutionEngine.remove_module, h]
  · intro ee h hne
    simp [ExecutionEngine.remove_module, h, hne]
  · intro ee targetDataOf c h hc
    have hrc : c.execution_engine.rc = ee.execution_engine.rc := by
      unfold ExecutionEngine.clone ExecutionEngine.new at hc
      by_cases h0 : ee.execution_engine.rc = 0
      · simp [h0] at hc
      · simp [h0] at hc
        rw [← hc]
    constructor <;>
      · simp only [ExecutionEngine.remove_module, h, hrc]
        split
        · simp_all
        · split <;> simp
  · intro ee h heq hcode
    simp [ExecutionEngine.remove_module, h, heq, hcode]
  · intro ee h heq hcode
    simp [ExecutionEngine.remove_module, h, heq, hcode]

/-- Concrete runs of `c2_remove_module`: removing a never-added module fails
with `ModuleNotOwned`; removing an owned module with a succeeding backend
detaches it. -/
theorem c2_remove_module_witness :
    ExecutionEngine.remove_module ee0 ⟨5, none⟩ ⟨0, 6, []⟩
      = (.error .ModuleNotOwned, ⟨5, none⟩) ∧
    ExecutionEngine.remove_module ee0 ⟨5, some ee0⟩ ⟨0, 6, []⟩
      = (.ok (), ⟨6, none⟩) :=
  ⟨(c2_remove_module ee0 ⟨5, none⟩ ⟨0, 6, []⟩).1 rfl,
   (c2_remove_module ee0 ⟨5, some ee0⟩ ⟨0, 6, []⟩).2.2.2.2 ee0 rfl rfl
     (by decide)⟩

/-- Claim C3: `add_module` performs the native `LLVMAddModule` registration
unconditionally; it returns `Err(())` exactly when the ownership flag is
already set, leaving the recorded owner (and the registration) in place;
otherwise it sets the flag to a clone of `self` and returns `Ok(())`; and
after a success a second `add_module` by any engine fails with the owner
unchanged. -/
theorem c3_add_module (targetDataOf : EngineRef → TargetDataRef)
    (self : ExecutionEngine) (m : Module)
    (hlive : self.execution_engine.rc ≠ 0) :
    ∃ r, self.add_module targetDataOf m = .ok r ∧
      (r.result = .error () ↔ m.owned_by_ee.isSome = true) ∧
      r.nativeAdds = [(self.execution_engine.rc, m.module)] ∧
      (m.owned_by_ee.isSome = true → r.module = m) ∧
      (m.owned_by_ee = none →
        ∃ c, ExecutionEngine.clone targetDataOf self = .ok c ∧
          r.module.owned_by_ee = some c ∧
          c.execution_engine = self.execution_engine) ∧
      (r.result = .ok () → ∀ targetDataOf2 (e2 : ExecutionEngine), ∃ r2,
         e2.add_module targetDataOf2 r.module = .ok r2 ∧
         r2.result = .error () ∧ r2.module = r.module) := by
  by_cases hm : m.owned_by_ee.isSome
  · refine ⟨⟨.error (), m, [(self.execution_engine.rc, m.module)]⟩, ?_,
      by simp [hm], rfl, fun _ => rfl, ?_, ?_⟩
    · simp [ExecutionEngine.add_module, hm]
    · intro hnone
      rw [hnone] at hm
      simp at hm
    · intro hok
      simp at hok
  · have hnone : m.owned_by_ee = none := Option.not_isSome_iff_eq_none.mp hm
    refine ⟨⟨.ok (), ⟨m.module, some ⟨⟨self.execution_engine.rc⟩,
        some ⟨targetDataOf self.execution_engine.rc⟩, self.jit_mode⟩⟩,
        [(self.execution_engine.rc, m.module)]⟩, ?_, by simp [hm], rfl, ?_, ?_, ?_⟩
    · simp [ExecutionEngine.add_module, hnone, ExecutionEngine.clone,
        ExecutionEngine.new, hlive]
    · intro h
      rw [h] at hm
      simp at hm
    · intro _
      refine ⟨⟨⟨self.execution_engine.rc⟩,
          some ⟨targetDataOf self.execution_engine.rc⟩, self.jit_mode⟩, ?_, rfl, rfl⟩
      simp [ExecutionEngine.clone, ExecutionEngine.new, hlive]
    · intro _ targetDataOf2 e2
      refine ⟨⟨.error (), ⟨m.module, some ⟨⟨self.execution_engine.rc⟩,
          some ⟨targetDataOf self.execution_engine.rc⟩, self.jit_mode⟩⟩,
          [(e2.execution_engine.rc, m.module)]⟩, ?_, rfl, rfl⟩
      simp [ExecutionEngine.add_module]

/-- Concrete run of `c3_add_module`: adding a fresh module to a live engine,
the native registration is recorded and the call succeeds. -/
theorem c3_add_module_witness :
    ∃ r, ExecutionEngine.add_module tdo0 ee0 ⟨5, none⟩ = .ok r ∧
      r.nativeAdds = [(ee0.execution_engine.rc, 5)] := by
  obtain ⟨r, hr, -, hadds, -⟩ := c3_add_module tdo0 ee0 ⟨5, none⟩ (by decide)
  exact ⟨r, hr, hadds⟩

theorem cstringAll_eq_some (args : List Bytes)
    (h : ∀ a ∈ args, ¬ 0 ∈ a) : cstringAll args = some args := by
  induction args with
  | nil => rfl
  | cons b t ih =>
      have hb : ¬ 0 ∈ b := h b (List.mem_cons_self b t)
      have ht := ih (fun a ha => h a (List.mem_cons_of_mem b ha))
      simp [cstringAll, cstringNew, hb, ht]

theorem cstringAll_eq_none (args : List Bytes) (a : Bytes)
    (ha : a ∈ args) (han : 0 ∈ a) : cstringAll args = none := by
  induction args with
  | nil => cases ha
  | cons b t ih =>
      rcases List.mem_cons.mp ha with hb | ht
      · subst hb
        simp [cstringAll, cstringNew, han]
      · have h := ih ht
        simp only [cstringAll, h]
        cases cstringNew b <;> rfl

/-- Claim C5: on an engine whose JIT-mode flag is false, `get_function` and
`get_function_value` both return `Err(JITNotEnabled)` immediately, for every
name and every backend, performing no native name-resolution call (the call
record is empty). -/
theorem c5_jit_gating (sizeF sizeUsize : Nat) (gfa : EngineRef → Bytes → Nat)
    (ff : EngineRef → Bytes → Int × Nat) (self : ExecutionEngine)
    (name : Bytes) (h : self.jit_mode = false) :
    self.get_function sizeF sizeUsize gfa name
      = (.ok (.error .JITNotEnabled), []) ∧
    self.get_function_value ff name
      = (.ok (.error .JITNotEnabled), []) := by
  constructor <;>
    simp [ExecutionEngine.get_function, ExecutionEngine.get_function_value, h]

/-- Concrete run of `c5_jit_gating` on the non-JIT sample engine. -/
theorem c5_jit_gating_witness :
    ExecutionEngine.get_function 8 8 (fun _ _ => 5) eeNoJit [97]
      = (.ok (.error .JITNotEnabled), []) ∧
    ExecutionEngine.get_function_value (fun _ _ => (0, 3)) eeNoJit [97]
      = (.ok (.error .JITNotEnabled), []) :=
  c5_jit_gating 8 8 (fun _ _ => 5) (fun _ _ => (0, 3)) eeNoJit [97] rfl

/-- Claim C6: on a JIT-mode engine, for a name without interior NUL,
`get_function` (with the size contract met) returns `Err(FunctionNotFound)`
exactly when address resolution yields zero, and otherwise returns `Ok` with
a `Symbol` holding the engine's reference-counted handle and the resolved
address reinterpreted as the function-pointer value. -/
theorem c6_get_function_resolution (sz : Nat) (gfa : EngineRef → Bytes → Nat)
    (self : ExecutionEngine) (name : Bytes)
    (hjit : self.jit_mode = true) (hname : ¬ 0 ∈ name) :
    (gfa self.execution_engine.rc name = 0 →
      self.get_function sz sz gfa name
        = (.ok (.error .FunctionNotFound),
           [NativeCall.getFunctionAddress self.execution_engine.rc name])) ∧
    (gfa self.execution_engine.rc name ≠ 0 →
      self.get_function sz sz gfa name
        = (.ok (.ok ⟨self.execution_engine, gfa self.execution_engine.rc name⟩),
           [NativeCall.getFunctionAddress self.execution_engine.rc name])) := by
  constructor <;> intro h <;>
    simp [ExecutionEngine.get_function, hjit, cstringNew, hname, h]

/-- Concrete run of `c6_get_function_resolution`: a nonzero resolved address
yields a `Symbol` carrying the engine handle and that address. -/
theorem c6_get_function_resolution_witness :
    ExecutionEngine.get_function 8 8 (fun _ _ => 5) ee0 [97]
      = (.ok (.ok ⟨⟨1⟩, 5⟩), [NativeCall.getFunctionAddress 1 [97]]) :=
  (c6_get_function_resolution 8 (fun _ _ => 5) ee0 [97] rfl (by decide)).2
    (by decide)

/-- Counterexample to claim C4 as stated: the size assertion does not fire
"regardless of the engine's mode" — on an engine without JIT mode,
`get_function` with a 4-byte `F` against 8-byte pointers returns
`Err(JITNotEnabled)` and does not panic, because the `jit_mode` check
precedes the assertion. -/
theorem c4_counterexample :
    (ExecutionEngine.get_function 4 8 (fun _ _ => 5) eeNoJit [97]).1
      = .ok (.error .JITNotEnabled) ∧
    ((ExecutionEngine.get_function 4 8 (fun _ _ => 5) eeNoJit [97]).1).isPanic
      = false :=
  ⟨rfl, rfl⟩

/-- Claim C4 (amended): `get_function` enforces the size contract as a panic,
not a recoverable error, whenever control reaches it — for every JIT-mode
engine and every name that converts to a `CString` and resolves to a nonzero
address, a size mismatch between `F` and a native pointer panics. -/
theorem c4_size_assertion (sizeF sizeUsize : Nat)
    (gfa : EngineRef → Bytes → Nat) (self : ExecutionEngine) (name : Bytes)
    (hjit : self.jit_mode = true) (hname : ¬ 0 ∈ name)
    (haddr : gfa self.execution_engine.rc name ≠ 0)
    (hsz : sizeF ≠ sizeUsize) :
    (self.get_function sizeF sizeUsize gfa name).1
      = .panic "The type `F` must have the same size as a function pointer" := by
  simp [ExecutionEngine.get_function, hjit, cstringNew, hname, haddr, hsz]

/-- Concrete run of `c4_size_assertion`: a 4-byte `F` against 8-byte pointers
panics on a JIT-mode engine with a resolvable name. -/
theorem c4_size_assertion_witness :
    (ExecutionEngine.get_function 4 8 (fun _ _ => 5) ee0 [97]).1
      = .panic "The type `F` must have the same size as a function pointer" :=
  c4_size_assertion 4 8 (fun _ _ => 5) ee0 [97] rfl (by decide) (by decide)
    (by decide)

/-- Claim C7: the cached target-data descriptor is present from construction
on (`get_target_data` returns it without panicking, also on any clone), and
at drop it is taken and forgotten: among the teardown events of a drop there
is never an independent target-data disposal, the only native disposal being
the engine disposal itself, which fires exactly when this was the last
owner. -/
theorem c7_target_data (r : EngineRef)
    (targetDataOf : EngineRef → TargetDataRef) (jit : Bool)
    (e : ExecutionEngine) (h : ExecutionEngine.new r targetDataOf jit = .ok e) :
    e.target_data = some ⟨targetDataOf r⟩ ∧
    e.get_target_data = .ok ⟨targetDataOf r⟩ ∧
    (∀ targetDataOf2 c, ExecutionEngine.clone targetDataOf2 e = .ok c →
      c.get_target_data = .ok ⟨targetDataOf2 r⟩) ∧
    (∀ strong, e.dropEvents strong
        = .ok (if strong = 1
               then [TeardownEvent.disposeExecutionEngine r] else []) ∧
      (∀ td evs, e.dropEvents strong = .ok evs →
        TeardownEvent.disposeTargetData td ∉ evs)) := by
  have hr : r ≠ 0 := by
    intro h0
    rw [h0] at h
    simp [ExecutionEngine.new] at h
  have he : e = ⟨⟨r⟩, some ⟨targetDataOf r⟩, jit⟩ := by
    simp [ExecutionEngine.new, hr] at h
    exact h.symm
  subst he
  refine ⟨rfl, rfl, ?_, ?_⟩
  · intro targetDataOf2 c hc
    simp [ExecutionEngine.clone, ExecutionEngine.new, hr] at hc
    rw [← hc]
    rfl
  · intro strong
    constructor
    · simp [ExecutionEngine.dropEvents]
    · intro td evs hevs
      simp [ExecutionEngine.dropEvents] at hevs
      rw [← hevs]
      split <;> simp

/-- Concrete run of `c7_target_data`: the sample engine's descriptor is
returned without panicking. -/
theorem c7_target_data_witness : ee0.get_target_data = .ok ⟨7⟩ :=
  (c7_target_data 1 tdo0 true ee0 (by decide)).2.1

/-- Claim C8: `run_function_as_main` passes an empty environment vector to
the native invocation for every engine, function, and (NUL-free) argument
list, and returns the native exit code unchanged. -/
theorem c8_run_function_as_main (runMain : MainInvocation → Int)
    (self : ExecutionEngine) (f : FunctionValue) (args : List Bytes)
    (h : ∀ a ∈ args, ¬ 0 ∈ a) :
    self.run_function_as_main runMain f args
      = .ok (runMain
               ⟨self.execution_engine.rc, f.fn_value, args.length, args, []⟩,
             [⟨self.execution_engine.rc, f.fn_value, args.length, args, []⟩]) := by
  simp [ExecutionEngine.run_function_as_main, cstringAll_eq_some args h]

/-- Concrete run of `c8_run_function_as_main`: one NUL-free argument, empty
environment, backend exit code forwarded. -/
theorem c8_run_function_as_main_witness :
    ExecutionEngine.run_function_as_main (fun _ => 0) ee0 ⟨3⟩ [[104, 105]]
      = .ok (0, [⟨1, 3, 1, [[104, 105]], []⟩]) :=
  c8_run_function_as_main (fun _ => 0) ee0 ⟨3⟩ [[104, 105]] (by decide)

/-- Counterexample to claim C10 as stated: for an interior-NUL name on an
engine without JIT mode, both lookups return the `FunctionLookupError`
`JITNotEnabled` (the JIT gate precedes the `CString` conversion) — they do
not panic. -/
theorem c10_counterexample :
    (ExecutionEngine.get_function 8 8 (fun _ _ => 5) eeNoJit [65, 0, 66]).1
      = .ok (.error .JITNotEnabled) ∧
    (ExecutionEngine.get_function_value (fun _ _ => (0, 3)) eeNoJit
        [65, 0, 66]).1
      = .ok (.error .JITNotEnabled) :=
  ⟨rfl, rfl⟩

/-- Claim C10 (amended): on a JIT-mode engine, `get_function` and
`get_function_value` panic via the failed `CString` conversion on every name
with an interior NUL byte instead of returning a `FunctionLookupError`; and
`run_function_as_main` panics likewise on every engine when any argument
string contains an interior NUL byte. -/
theorem c10_interior_nul_panics (sizeF sizeUsize : Nat)
    (gfa : EngineRef → Bytes → Nat) (ff : EngineRef → Bytes → Int × Nat)
    (runMain : MainInvocation → Int) (self other : ExecutionEngine)
    (f : FunctionValue) (name : Bytes) (args : List Bytes) (a : Bytes)
    (hjit : self.jit_mode = true) (hn : 0 ∈ name)
    (ha : a ∈ args) (han : 0 ∈ a) :
    (self.get_function sizeF sizeUsize gfa name).1
      = .panic "Conversion to CString failed unexpectedly" ∧
    (self.get_function_value ff name).1
      = .panic "Conversion to CString failed unexpectedly" ∧
    other.run_function_as_main runMain f args
      = .panic "Conversion to CString failed unexpectedly" := by
  refine ⟨?_, ?_, ?_⟩
  · simp [ExecutionEngine.get_function, hjit, cstringNew, hn]
  · simp [ExecutionEngine.get_function_value, hjit, cstringNew, hn]
  · simp [ExecutionEngine.run_function_as_main,
      cstringAll_eq_none args a ha han]

/-- Concrete run of `c10_interior_nul_panics`: the name and argument
`[65, 0]` panic the lookup and the main-style invocation. -/
theorem c10_interior_nul_panics_witness :
    (ExecutionEngine.get_function 8 8 (fun _ _ => 5) ee0 [65, 0]).1
      = .panic "Conversion to CString failed unexpectedly" ∧
    ExecutionEngine.run_function_as_main (fun _ => 0) ee0 ⟨3⟩ [[65, 0]]
      = .panic "Conversion to CString failed unexpectedly" := by
  have h := c10_interior_nul_panics 8 8 (fun _ _ => 5) (fun _ _ => (0, 3))
    (fun _ => 0) ee0 ee0 ⟨3⟩ [65, 0] [[65, 0]] [65, 0] rfl (by decide)
    (by decide) (by decide)
  exact ⟨h.1, h.2.2⟩

end Inkwell
